import Mathlib

/-!
Shallow embedding of an NES emulator core (a 6502-family CPU, its bus, and the
PPU register file) together with theorems about its observable behaviour.

Conventions of the embedding:
* machine integers are `Nat` with explicit `% 256` / `% 65536` where the source
  relies on `u8` / `u16` wraparound;
* byte stores (`[u8; N]`, `Vec<u8>`) are functions `Nat → Nat` updated with `upd`,
  guarded by an explicit length where the source could index out of bounds;
* code that can panic (`panic!`, `todo!`, `unimplemented!`, `.unwrap()`,
  out-of-bounds indexing) returns `none` / a dedicated crash constructor;
  `println!`-and-continue paths return normally.
-/

namespace Nes

/-- Pointwise update of a byte store modelled as a function from indices to bytes. -/
def upd (f : Nat → Nat) (i v : Nat) : Nat → Nat := fun j => if j = i then v else f j

theorem upd_same (f : Nat → Nat) (i v : Nat) : upd f i v i = v := by simp [upd]

theorem upd_ne (f : Nat → Nat) (i v j : Nat) (h : j ≠ i) : upd f i v j = f j := by
  simp [upd, h]

theorem upd_lt (f : Nat → Nat) (i v : Nat) (hf : ∀ j, f j < 256) (hv : v < 256) :
    ∀ j, upd f i v j < 256 := by
  intro j
  unfold upd
  split
  · exact hv
  · exact hf j

/-- Combining a high byte and a low byte with a shift and a bitwise or is
plain positional arithmetic. -/
theorem lor_shift8 (h l : Nat) (hl : l < 256) : (h <<< 8) ||| l = 256 * h + l := by
  rw [Nat.shiftLeft_eq]
  have hl8 : l < 2 ^ 8 := by norm_num; omega
  have h2 := Nat.mul_add_lt_is_or (i := 8) (b := l) hl8 h
  rw [Nat.mul_comm]
  norm_num at h2 ⊢
  exact h2.symm

/-- Masking with `0xFF` is reduction modulo 256. -/
theorem and255_eq_mod (x : Nat) : x &&& 255 = x % 256 := by
  have h := Nat.and_pow_two_sub_one_eq_mod x 8
  norm_num at h
  exact h

/-- Masking with `0x7FF` is reduction modulo 0x800. -/
theorem and2047_eq_mod (x : Nat) : x &&& 2047 = x % 2048 := by
  have h := Nat.and_pow_two_sub_one_eq_mod x 11
  norm_num at h
  exact h

/-- Masking with `0x3FFF` is reduction modulo 0x4000. -/
theorem and16383_eq_mod (x : Nat) : x &&& 16383 = x % 16384 := by
  have h := Nat.and_pow_two_sub_one_eq_mod x 14
  norm_num at h
  exact h

set_option maxRecDepth 4000

/-- On the page-start pointers produced by the indirect-jump quirk the
`0xFF00` mask keeps exactly the high byte. -/
theorem andFF00_quirk : ∀ h, h < 256 → (256 * h + 255) &&& 65280 = 256 * h := by decide

/-- Addresses inside `0x2000..0x2FFF` are fixed points of the `0x2FFF` mask. -/
theorem and2FFF_eq_self (a : Nat) (h1 : 8192 ≤ a) (h2 : a < 12288) : a &&& 12287 = a := by
  obtain ⟨r, hr, rfl⟩ : ∃ r, r < 4096 ∧ a = 8192 + r := ⟨a - 8192, by omega, by omega⟩
  have e1 : (8192 + r : Nat) = 8192 ||| r := by
    have h13 : r < 2 ^ 13 := by norm_num; omega
    have hh := Nat.mul_add_lt_is_or (i := 13) (b := r) h13 1
    norm_num at hh
    exact hh
  have e4 : r &&& 4095 = r := by
    have h12 : r < 2 ^ 12 := by norm_num; omega
    have hh := Nat.and_pow_two_sub_one_of_lt_two_pow h12
    norm_num at hh
    exact hh
  have e5 : r &&& 8192 = 0 := by
    have h13 : r < 2 ^ 13 := by norm_num; omega
    have hb : r.testBit 13 = false := Nat.testBit_lt_two_pow h13
    have hh := Nat.and_two_pow r 13
    norm_num [hb] at hh
    exact hh
  have e3 : r &&& 12287 = r := by
    have d : (12287 : Nat) = 4095 ||| 8192 := by decide
    rw [d, Nat.and_or_distrib_left, e4, e5]
    simp
  have e2 : (8192 : Nat) &&& 12287 = 8192 := by decide
  rw [e1, Nat.and_distrib_right, e2, e3, ← e1]

/-! ## The cartridge and the bus (`src/bus.rs`) -/

/-- Cartridge image. Modelled from the spec: `src/rom.rs` is not among the provided
sources; the spec describes the record as program-ROM bytes (16 KiB or 32 KiB) plus
graphics-ROM bytes and a mirroring mode.  Only the program ROM is owned by the bus. -/
structure ROM where
  prg_rom : Nat → Nat
  prg_len : Nat

/-- Nametable mirroring mode. Modelled from the spec: `src/rom.rs` is not among the
provided sources; the spec gives `mirroring: Horizontal|Vertical`. -/
inductive Mirroring where
  | HORIZONTAL
  | VERTICAL
  deriving DecidableEq

/-- Bus state: 2 KiB of console RAM plus the owned cartridge (`BUS` in `src/bus.rs`). -/
structure BUS where
  cpu_vram : Nat → Nat
  rom : ROM

namespace BUS

/-- `BUS::read_prg_rom`: subtract `0x8000`, fold 16 KiB images modulo `0x4000`,
index the program ROM (`none` models the out-of-bounds indexing panic). -/
def read_prg_rom (b : BUS) (addr : Nat) : Option Nat :=
  let a := addr - 0x8000
  let a := if b.rom.prg_len = 0x4000 ∧ 0x4000 ≤ a then a % 0x4000 else a
  if a < b.rom.prg_len then some (b.rom.prg_rom a) else none

/-- `BUS::m_read` over the `u16` address domain.  RAM region is masked to 11 bits;
the PPU-register region is `todo!()` in the source, hence `none`; unmapped
addresses are reported and read as 0. -/
def m_read (b : BUS) (addr : Nat) : Option Nat :=
  if addr ≤ 0x1FFF then some (b.cpu_vram (addr &&& 0x7FF))
  else if addr ≤ 0x3FFF then none
  else if 0x8000 ≤ addr then b.read_prg_rom addr
  else some 0

/-- `BUS::m_write`.  RAM region masked to 11 bits; PPU region is `todo!()` (`none`);
writes into `0x8000..=0xFFFF` panic (`none`); unmapped writes are reported and
dropped. -/
def m_write (b : BUS) (addr data : Nat) : Option BUS :=
  if addr ≤ 0x1FFF then some { b with cpu_vram := upd b.cpu_vram (addr &&& 0x7FF) data }
  else if addr ≤ 0x3FFF then none
  else if 0x8000 ≤ addr then none
  else some b

/-- The `Memory` trait's derived `m_read_u16` (`src/cpu/memory.rs`): little-endian
combination of the bytes at `addr` and `addr + 1`. -/
def m_read_u16 (b : BUS) (addr : Nat) : Option Nat := do
  let low ← b.m_read addr
  let high ← b.m_read (addr + 1)
  pure ((high <<< 8) ||| low)

/-- The `Memory` trait's derived `m_write_u16` (`src/cpu/memory.rs`), verbatim:
the low byte is `data & 0xFF`, the high byte is `(data >> 8) >> 8`. -/
def m_write_u16 (b : BUS) (addr data : Nat) : Option BUS := do
  let low := data &&& 0xFF
  let high := (data >>> 8) >>> 8
  let b1 ← b.m_write addr low
  b1.m_write (addr + 1) high

end BUS

/-- A bus whose RAM is zeroed and whose cartridge is a blank 16 KiB image. -/
def bus0 : BUS := ⟨fun _ => 0, ⟨fun _ => 0, 0x4000⟩⟩

/-- All bytes stored in the bus are in range (true of any state reachable from
`u8`-typed Rust data). -/
def BusWF (b : BUS) : Prop :=
  (∀ i, b.cpu_vram i < 256) ∧ (∀ i, b.rom.prg_rom i < 256)

theorem bus0_wf : BusWF bus0 := ⟨fun _ => by norm_num [bus0], fun _ => by norm_num [bus0]⟩

theorem BUS.m_read_lt {b : BUS} {addr v : Nat} (hwf : BusWF b)
    (h : b.m_read addr = some v) : v < 256 := by
  unfold m_read at h
  split at h
  · cases h; exact (and2047_eq_mod addr) ▸ hwf.1 _
  · split at h
    · cases h
    · split at h
      · simp only [read_prg_rom] at h
        split at h <;> split at h
        · cases h; exact hwf.2 _
        · cases h
        · cases h; exact hwf.2 _
        · cases h
      · cases h; norm_num

/-- C1 failing-input evaluation: on a fresh bus, `m_write_u16 0x10 0x1234` stores
`0x34` at `0x10` but `0x00` (not `0x12`) at `0x11`, because the source computes the
high byte as `(data >> 8) >> 8`, which is identically zero for a `u16`; the
subsequent `m_read_u16` therefore returns `0x34`, not `0x1234`. -/
theorem C1_write16_read16_bug :
    (BUS.m_write_u16 bus0 0x10 0x1234).map (fun b => (b.cpu_vram 0x10, b.cpu_vram 0x11))
      = some (0x34, 0x00) ∧
    (BUS.m_write_u16 bus0 0x10 0x1234).bind (fun b => b.m_read_u16 0x10) = some 0x34 := by
  constructor <;> rfl

/-! ## The CPU (`src/cpu.rs`) -/

/-- Status-register bit masks (`CpuFlags` in `src/cpu.rs`). -/
def CpuFlags.CARRY : Nat := 0x01

def CpuFlags.ZERO : Nat := 0x02

def CpuFlags.INTERRUPT_DISABLE : Nat := 0x04

def CpuFlags.DECIMAL : Nat := 0x08

def CpuFlags.BREAK : Nat := 0x10

def CpuFlags.BREAK2 : Nat := 0x20

def CpuFlags.OVERFLOW : Nat := 0x40

def CpuFlags.NEGATIVE : Nat := 0x80

/-- `STACK_OFFSET` in `src/cpu.rs`. -/
def STACK_OFFSET : Nat := 0x0100

/-- `STACK_RESET` in `src/cpu.rs`. -/
def STACK_RESET : Nat := 0xFD

/-- Processor state (`struct CPU` in `src/cpu.rs`). -/
structure CPU where
  register_a : Nat
  register_x : Nat
  register_y : Nat
  stack_pointer : Nat
  program_counter : Nat
  status_register : Nat
  bus : BUS

/-- Addressing modes (`enum AddressingMode` in `src/cpu.rs`). -/
inductive AddressingMode where
  | Accumulator
  | Immediate
  | ZeroPage
  | ZeroPageX
  | ZeroPageY
  | Absolute
  | AbsoluteX
  | AbsoluteY
  | IndirectX
  | IndirectY
  | Indirect
  | NoneAddressing

namespace CPU

/-- `bitflags` `contains`: all bits of the mask are set. -/
def contains (cpu : CPU) (mask : Nat) : Bool := cpu.status_register &&& mask == mask

/-- `bitflags` `insert`. -/
def insertFlag (cpu : CPU) (mask : Nat) : CPU :=
  { cpu with status_register := cpu.status_register ||| mask }

/-- `bitflags` `remove` (`bits &= !mask`, the complement taken inside `u8`). -/
def removeFlag (cpu : CPU) (mask : Nat) : CPU :=
  { cpu with status_register := cpu.status_register &&& (255 ^^^ mask) }

/-- Memory-trait impl for the CPU: delegate to the bus. -/
def m_read (cpu : CPU) (addr : Nat) : Option Nat := cpu.bus.m_read addr

def m_write (cpu : CPU) (addr data : Nat) : Option CPU :=
  (cpu.bus.m_write addr data).map (fun b => { cpu with bus := b })

def m_read_u16 (cpu : CPU) (addr : Nat) : Option Nat := cpu.bus.m_read_u16 addr

def m_write_u16 (cpu : CPU) (addr data : Nat) : Option CPU :=
  (cpu.bus.m_write_u16 addr data).map (fun b => { cpu with bus := b })

/-- `CPU::set_zero_flag`. -/
def set_zero_flag (cpu : CPU) (value : Nat) : CPU :=
  if value = 0 then cpu.insertFlag CpuFlags.ZERO else cpu.removeFlag CpuFlags.ZERO

/-- `CPU::set_negative_flag`. -/
def set_negative_flag (cpu : CPU) (value : Nat) : CPU :=
  if value >>> 7 = 1 then cpu.insertFlag CpuFlags.NEGATIVE else cpu.removeFlag CpuFlags.NEGATIVE

/-- `CPU::set_zero_and_negative_flag`. -/
def set_zero_and_negative_flag (cpu : CPU) (value : Nat) : CPU :=
  (cpu.set_zero_flag value).set_negative_flag value

/-- `CPU::set_carry_flag`. -/
def set_carry_flag (cpu : CPU) (value : Bool) : CPU :=
  if value then cpu.insertFlag CpuFlags.CARRY else cpu.removeFlag CpuFlags.CARRY

/-- `CPU::set_overflow_flag`. -/
def set_overflow_flag (cpu : CPU) (value : Bool) : CPU :=
  if value then cpu.insertFlag CpuFlags.OVERFLOW else cpu.removeFlag CpuFlags.OVERFLOW

/-- `CPU::set_reg_a`: assign the accumulator, then update Zero/Negative from it. -/
def set_reg_a (cpu : CPU) (data : Nat) : CPU :=
  ({ cpu with register_a := data }).set_zero_and_negative_flag data

/-- `CPU::add_reg_a`: the shared ADC/SBC core. -/
def add_reg_a (cpu : CPU) (data : Nat) : CPU :=
  let result := cpu.register_a + data + (if cpu.contains CpuFlags.CARRY then 1 else 0)
  let cpu1 := cpu.set_carry_flag (decide (result > 0xFF))
  let cpu2 := cpu1.set_overflow_flag
    (decide ((data ^^^ result % 256) &&& (result % 256 ^^^ cpu1.register_a) &&& 0x80 ≠ 0))
  cpu2.set_reg_a (result % 256)

/-- `CPU::pop_stack`: increment the stack pointer (mod 256), then read the bus at
the bare stack-pointer value — the source does not add `STACK_OFFSET` here. -/
def pop_stack (cpu : CPU) : Option (Nat × CPU) :=
  let cpu := { cpu with stack_pointer := (cpu.stack_pointer + 1) % 256 }
  (cpu.m_read cpu.stack_pointer).map (fun d => (d, cpu))

/-- `CPU::pop_stack_u16`: low byte first, then high byte. -/
def pop_stack_u16 (cpu : CPU) : Option (Nat × CPU) := do
  let (l, cpu) ← cpu.pop_stack
  let (h, cpu) ← cpu.pop_stack
  pure ((h <<< 8) ||| l, cpu)

/-- `CPU::push_stack`: write at `STACK_OFFSET + stack_pointer`, then decrement the
stack pointer with 8-bit wraparound. -/
def push_stack (cpu : CPU) (data : Nat) : Option CPU := do
  let cpu ← cpu.m_write (STACK_OFFSET + cpu.stack_pointer) data
  pure { cpu with stack_pointer := (cpu.stack_pointer + 255) % 256 }

/-- `CPU::push_stack_u16`: high byte first, then low byte. -/
def push_stack_u16 (cpu : CPU) (data : Nat) : Option CPU := do
  let cpu ← cpu.push_stack (data >>> 8)
  cpu.push_stack (data &&& 0xFF)

end CPU

/-- A power-on CPU over `bus0`: registers zero, stack pointer `0xFD`,
status `0b100100`, as set by `CPU::new`. -/
def cpu0 : CPU :=
  { register_a := 0, register_x := 0, register_y := 0, stack_pointer := STACK_RESET,
    program_counter := 0, status_register := 0b100100, bus := bus0 }

/-- C2 failing-input evaluation: on a fresh CPU (stack pointer `0xFD`, zeroed RAM),
`push_stack 0x42` stores `0x42` at `0x0100 + 0xFD = 0x01FD`, but the following
`pop_stack` reads the bus at the bare stack-pointer value `0x00FD` (the source omits
`STACK_OFFSET`), so it returns `0x00`, not the pushed `0x42`, even though the stack
pointer does return to `0xFD`. -/
theorem C2_push_pop_bug :
    ((cpu0.push_stack 0x42).map (fun c => c.bus.cpu_vram 0x1FD) = some 0x42) ∧
    (((cpu0.push_stack 0x42).bind CPU.pop_stack).map (fun vc => (vc.1, vc.2.stack_pointer))
      = some (0x00, 0xFD)) := by
  constructor <;> rfl

namespace CPU

/-- `CPU::get_op_addr`: effective-operand-address resolution per addressing mode.
`Accumulator`, `Indirect` and `NoneAddressing` fall into the `panic!` arms of the
source match, hence `none`. -/
def get_op_addr (cpu : CPU) (mode : AddressingMode) : Option Nat :=
  match mode with
  | .Immediate => some cpu.program_counter
  | .ZeroPage => cpu.m_read cpu.program_counter
  | .Absolute => cpu.m_read_u16 cpu.program_counter
  | .ZeroPageX => do
      let addr ← cpu.m_read cpu.program_counter
      pure ((addr + cpu.register_x) % 256)
  | .ZeroPageY => do
      let addr ← cpu.m_read cpu.program_counter
      pure ((addr + cpu.register_y) % 256)
  | .AbsoluteX => do
      let addr ← cpu.m_read_u16 cpu.program_counter
      pure ((addr + cpu.register_x) % 65536)
  | .AbsoluteY => do
      let addr ← cpu.m_read_u16 cpu.program_counter
      pure ((addr + cpu.register_y) % 65536)
  | .IndirectX => do
      let addr ← cpu.m_read cpu.program_counter
      let p := (addr + cpu.register_x) % 256
      let l ← cpu.m_read p
      let h ← cpu.m_read ((p + 1) % 65536)
      pure ((h <<< 8) ||| l)
  | .IndirectY => do
      let addr ← cpu.m_read cpu.program_counter
      let l ← cpu.m_read addr
      let h ← cpu.m_read ((addr + 1) % 256)
      pure (((h <<< 8) ||| l + cpu.register_y) % 65536)
  | .Accumulator => none
  | .Indirect => none
  | .NoneAddressing => none

/-- `CPU::branch`: on a taken branch, read the offset byte at the program counter,
sign-extend it to 16 bits, and add it to the counter advanced past the offset byte. -/
def branch (cpu : CPU) (condition : Bool) : Option CPU :=
  if condition then do
    let b ← cpu.m_read cpu.program_counter
    let off := if b < 128 then b else b + 65280
    pure { cpu with program_counter := (cpu.program_counter + 1 + off) % 65536 }
  else
    some cpu

/-- `CPU::compare` (shared by CMP/CPX/CPY). -/
def compare (cpu : CPU) (mode : AddressingMode) (value : Nat) : Option CPU := do
  let addr ← cpu.get_op_addr mode
  let data ← cpu.m_read addr
  let cpu := cpu.set_carry_flag (decide (value ≥ data))
  pure (cpu.set_zero_and_negative_flag ((value + 256 - data) % 256))

/-- `CPU::adc`. -/
def adc (cpu : CPU) (mode : AddressingMode) : Option CPU := do
  let addr ← cpu.get_op_addr mode
  let data ← cpu.m_read addr
  pure (cpu.add_reg_a data)

/-- `CPU::and`. -/
def and (cpu : CPU) (mode : AddressingMode) : Option CPU := do
  let addr ← cpu.get_op_addr mode
  let data ← cpu.m_read addr
  pure (cpu.set_reg_a (cpu.register_a &&& data))

/-- `CPU::asl`. -/
def asl (cpu : CPU) (mode : AddressingMode) : Option CPU :=
  match mode with
  | .Accumulator =>
      let cpu := cpu.set_carry_flag (cpu.register_a >>> 7 == 1)
      some (cpu.set_reg_a ((cpu.register_a <<< 1) % 256))
  | _ => do
      let addr ← cpu.get_op_addr mode
      let data ← cpu.m_read addr
      let cpu := cpu.set_carry_flag (data >>> 7 == 1)
      let cpu ← cpu.m_write addr ((data <<< 1) % 256)
      pure (cpu.set_zero_and_negative_flag ((data <<< 1) % 256))

/-- `CPU::bit`. -/
def bit (cpu : CPU) (mode : AddressingMode) : Option CPU := do
  let addr ← cpu.get_op_addr mode
  let data ← cpu.m_read addr
  let cpu := cpu.set_zero_flag (cpu.register_a &&& data)
  let cpu := cpu.set_negative_flag data
  pure (cpu.set_overflow_flag (data &&& 0x40 != 0))

/-- `CPU::dec`. -/
def dec (cpu : CPU) (mode : AddressingMode) : Option CPU := do
  let addr ← cpu.get_op_addr mode
  let data ← cpu.m_read addr
  let data := (data + 255) % 256
  let cpu ← cpu.m_write addr data
  pure (cpu.set_zero_and_negative_flag data)

/-- `CPU::dex`. -/
def dex (cpu : CPU) : CPU :=
  let cpu := { cpu with register_x := (cpu.register_x + 255) % 256 }
  cpu.set_zero_and_negative_flag cpu.register_x

/-- `CPU::dey`. -/
def dey (cpu : CPU) : CPU :=
  let cpu := { cpu with register_y := (cpu.register_y + 255) % 256 }
  cpu.set_zero_and_negative_flag cpu.register_y

/-- `CPU::eor`. -/
def eor (cpu : CPU) (mode : AddressingMode) : Option CPU := do
  let addr ← cpu.get_op_addr mode
  let data ← cpu.m_read addr
  pure (cpu.set_reg_a (cpu.register_a ^^^ data))

/-- `CPU::inc`. -/
def inc (cpu : CPU) (mode : AddressingMode) : Option CPU := do
  let addr ← cpu.get_op_addr mode
  let data ← cpu.m_read addr
  let data := (data + 1) % 256
  let cpu ← cpu.m_write addr data
  pure (cpu.set_zero_and_negative_flag data)

/-- `CPU::inx`. -/
def inx (cpu : CPU) : CPU :=
  let cpu := { cpu with register_x := (cpu.register_x + 1) % 256 }
  cpu.set_zero_and_negative_flag cpu.register_x

/-- `CPU::iny`. -/
def iny (cpu : CPU) : CPU :=
  let cpu := { cpu with register_y := (cpu.register_y + 1) % 256 }
  cpu.set_zero_and_negative_flag cpu.register_y

/-- `CPU::jmp`, including the indirect page-boundary hardware quirk: when the
indirect pointer's low byte is `0xFF`, the high byte of the target is fetched from
`pointer & 0xFF00` instead of `pointer + 1`. -/
def jmp (cpu : CPU) (mode : AddressingMode) : Option CPU :=
  match mode with
  | .Absolute => do
      let addr ← cpu.get_op_addr AddressingMode.Absolute
      pure { cpu with program_counter := addr }
  | .Indirect => do
      let addr ← cpu.m_read_u16 cpu.program_counter
      if addr &&& 0x00FF == 0x00FF then
        let hi ← cpu.m_read (addr &&& 0xFF00)
        let lo ← cpu.m_read addr
        pure { cpu with program_counter := (hi <<< 8) ||| lo }
      else
        let t ← cpu.m_read_u16 addr
        pure { cpu with program_counter := t }
  | _ => none

/-- `CPU::jsr`. -/
def jsr (cpu : CPU) : Option CPU := do
  let cpu ← cpu.push_stack_u16 (cpu.program_counter - 1)
  let t ← cpu.m_read_u16 cpu.program_counter
  pure { cpu with program_counter := t }

/-- `CPU::lda`. -/
def lda (cpu : CPU) (mode : AddressingMode) : Option CPU := do
  let addr ← cpu.get_op_addr mode
  let data ← cpu.m_read addr
  pure (cpu.set_reg_a data)

/-- `CPU::ldx`. -/
def ldx (cpu : CPU) (mode : AddressingMode) : Option CPU := do
  let addr ← cpu.get_op_addr mode
  let data ← cpu.m_read addr
  let cpu := { cpu with register_x := data }
  pure (cpu.set_zero_and_negative_flag cpu.register_x)

/-- `CPU::ldy`. -/
def ldy (cpu : CPU) (mode : AddressingMode) : Option CPU := do
  let addr ← cpu.get_op_addr mode
  let data ← cpu.m_read addr
  let cpu := { cpu with register_y := data }
  pure (cpu.set_zero_and_negative_flag cpu.register_y)

/-- `CPU::lsr`. -/
def lsr (cpu : CPU) (mode : AddressingMode) : Option CPU :=
  match mode with
  | .Accumulator =>
      let cpu := cpu.set_carry_flag (cpu.register_a &&& 0x01 == 0x01)
      some (cpu.set_reg_a (cpu.register_a >>> 1))
  | _ => do
      let addr ← cpu.get_op_addr mode
      let data ← cpu.m_read addr
      let cpu := cpu.set_carry_flag (data &&& 0x01 == 0x01)
      let cpu ← cpu.m_write addr (data >>> 1)
      pure (cpu.set_zero_and_negative_flag (data >>> 1))

/-- `CPU::ora`. -/
def ora (cpu : CPU) (mode : AddressingMode) : Option CPU := do
  let addr ← cpu.get_op_addr mode
  let data ← cpu.m_read addr
  pure (cpu.set_reg_a (cpu.register_a ||| data))

/-- `CPU::pha`. -/
def pha (cpu : CPU) : Option CPU := cpu.push_stack cpu.register_a

/-- `CPU::php`: push the status with BREAK and BREAK2 forced on. -/
def php (cpu : CPU) : Option CPU :=
  cpu.push_stack ((cpu.status_register ||| CpuFlags.BREAK) ||| CpuFlags.BREAK2)

/-- `CPU::pla`. -/
def pla (cpu : CPU) : Option CPU := do
  let (data, cpu) ← cpu.pop_stack
  pure (cpu.set_reg_a data)

/-- `CPU::plp`: pulled status always clears BREAK and sets BREAK2. -/
def plp (cpu : CPU) : Option CPU := do
  let (data, cpu) ← cpu.pop_stack
  let cpu := { cpu with status_register := data }
  pure ((cpu.removeFlag CpuFlags.BREAK).insertFlag CpuFlags.BREAK2)

/-- `CPU::rol`.  In the memory variant the source computes Zero/Negative from the
pre-rotation `data`, not from the rotated value it writes back. -/
def rol (cpu : CPU) (mode : AddressingMode) : Option CPU :=
  match mode with
  | .Accumulator =>
      let carry := cpu.contains CpuFlags.CARRY
      let cpu := cpu.set_carry_flag (cpu.register_a >>> 7 == 0x01)
      some (cpu.set_reg_a
        (if carry then (cpu.register_a <<< 1) % 256 ||| 0x01 else (cpu.register_a <<< 1) % 256))
  | _ => do
      let addr ← cpu.get_op_addr mode
      let data ← cpu.m_read addr
      let carry := cpu.contains CpuFlags.CARRY
      let cpu := cpu.set_carry_flag (data >>> 7 == 0x01)
      let cpu ← cpu.m_write addr
        (if carry then (data <<< 1) % 256 ||| 0x01 else (data <<< 1) % 256)
      pure (cpu.set_zero_and_negative_flag data)

/-- `CPU::ror`.  Same flag quirk as `rol` in the memory variant. -/
def ror (cpu : CPU) (mode : AddressingMode) : Option CPU :=
  match mode with
  | .Accumulator =>
      let carry := cpu.contains CpuFlags.CARRY
      let cpu := cpu.set_carry_flag (cpu.register_a &&& 0x01 == 0x01)
      some (cpu.set_reg_a
        (if carry then cpu.register_a >>> 1 ||| 0x80 else cpu.register_a >>> 1))
  | _ => do
      let addr ← cpu.get_op_addr mode
      let data ← cpu.m_read addr
      let carry := cpu.contains CpuFlags.CARRY
      let cpu := cpu.set_carry_flag (data &&& 0x01 == 0x01)
      let cpu ← cpu.m_write addr (if carry then data >>> 1 ||| 0x80 else data >>> 1)
      pure (cpu.set_zero_and_negative_flag data)

/-- `CPU::rti`. -/
def rti (cpu : CPU) : Option CPU := do
  let (data, cpu) ← cpu.pop_stack
  let cpu := { cpu with status_register := data }
  let cpu := (cpu.removeFlag CpuFlags.BREAK).insertFlag CpuFlags.BREAK2
  let (pc, cpu) ← cpu.pop_stack_u16
  pure { cpu with program_counter := pc }

/-- `CPU::rts`. -/
def rts (cpu : CPU) : Option CPU := do
  let (pc, cpu) ← cpu.pop_stack_u16
  pure { cpu with program_counter := pc + 1 }

/-- `CPU::sbc`: ADC on the operand's two's-complement negation minus one
(`(data as i8).wrapping_neg().wrapping_sub(1) as u8`). -/
def sbc (cpu : CPU) (mode : AddressingMode) : Option CPU := do
  let addr ← cpu.get_op_addr mode
  let data ← cpu.m_read addr
  pure (cpu.add_reg_a (((256 - data) % 256 + 255) % 256))

/-- `CPU::sta`. -/
def sta (cpu : CPU) (mode : AddressingMode) : Option CPU := do
  let addr ← cpu.get_op_addr mode
  cpu.m_write addr cpu.register_a

/-- `CPU::stx`. -/
def stx (cpu : CPU) (mode : AddressingMode) : Option CPU := do
  let addr ← cpu.get_op_addr mode
  cpu.m_write addr cpu.register_x

/-- `CPU::sty`. -/
def sty (cpu : CPU) (mode : AddressingMode) : Option CPU := do
  let addr ← cpu.get_op_addr mode
  cpu.m_write addr cpu.register_y

/-- `CPU::tax`, `CPU::tay`, `CPU::tsx`, `CPU::txa`, `CPU::txs`, `CPU::tya`. -/
def tax (cpu : CPU) : CPU :=
  let cpu := { cpu with register_x := cpu.register_a }
  cpu.set_zero_and_negative_flag cpu.register_x

def tay (cpu : CPU) : CPU :=
  let cpu := { cpu with register_y := cpu.register_a }
  cpu.set_zero_and_negative_flag cpu.register_y

def tsx (cpu : CPU) : CPU :=
  let cpu := { cpu with register_x := cpu.stack_pointer }
  cpu.set_zero_and_negative_flag cpu.register_x

def txa (cpu : CPU) : CPU :=
  let cpu := { cpu with register_a := cpu.register_x }
  cpu.set_zero_and_negative_flag cpu.register_a

def txs (cpu : CPU) : CPU := { cpu with stack_pointer := cpu.register_x }

def tya (cpu : CPU) : CPU :=
  let cpu := { cpu with register_a := cpu.register_y }
  cpu.set_zero_and_negative_flag cpu.register_a

/-- `CPU::anc` (unofficial AND-with-Carry; `#[allow(dead_code)]` in the source). -/
def anc (cpu : CPU) (mode : AddressingMode) : Option CPU := do
  let addr ← cpu.get_op_addr mode
  let data ← cpu.m_read addr
  let cpu := { cpu with register_a := cpu.register_a &&& data }
  let cpu := cpu.set_carry_flag (cpu.register_a &&& 0x80 == 0x80)
  pure (cpu.set_zero_and_negative_flag cpu.register_a)

end CPU

/-- An opcode descriptor: the fields of the source's `Opcode` that
`CPU::run_callback` consumes (byte length and addressing mode). -/
structure Opcode where
  bytes : Nat
  mode : AddressingMode

/-- Modelled from the spec: `OPCODES_MAP` lives in `src/opcodes.rs`, which is not
among the provided sources.  Per the spec (sections 4.4 and 9) it is a static table
from opcode byte to descriptor for the roughly seventy legal opcodes of the 6502
family; the byte set here is exactly the set dispatched by `CPU::run_callback`, with
the standard 6502 addressing modes and instruction byte lengths. -/
def opcodesMap (code : Nat) : Option Opcode :=
  match code with
  | 0x69 | 0xC9 | 0xE0 | 0xC0 | 0xA9 | 0xA2 | 0xA0 | 0x49 | 0x29 | 0x09 | 0xE9 =>
      some ⟨2, .Immediate⟩
  | 0x65 | 0x25 | 0x06 | 0x24 | 0xC5 | 0xE4 | 0xC4 | 0xC6 | 0x45 | 0xE6 | 0xA5 | 0xA6
  | 0xA4 | 0x46 | 0x05 | 0x26 | 0x66 | 0xE5 | 0x85 | 0x86 | 0x84 =>
      some ⟨2, .ZeroPage⟩
  | 0x75 | 0x35 | 0x16 | 0xD5 | 0xD6 | 0x55 | 0xF6 | 0xB5 | 0xB4 | 0x56 | 0x15 | 0x36
  | 0x76 | 0xF5 | 0x95 | 0x94 =>
      some ⟨2, .ZeroPageX⟩
  | 0xB6 | 0x96 =>
      some ⟨2, .ZeroPageY⟩
  | 0x6D | 0x2D | 0x0E | 0x2C | 0xCD | 0xEC | 0xCC | 0xCE | 0x4D | 0xEE | 0x4C | 0x20
  | 0xAD | 0xAE | 0xAC | 0x4E | 0x0D | 0x2E | 0x6E | 0xED | 0x8D | 0x8E | 0x8C =>
      some ⟨3, .Absolute⟩
  | 0x7D | 0x3D | 0x1E | 0xDD | 0xDE | 0x5D | 0xFE | 0xBD | 0xBC | 0x5E | 0x1D | 0x3E
  | 0x7E | 0xFD | 0x9D =>
      some ⟨3, .AbsoluteX⟩
  | 0x79 | 0x39 | 0xD9 | 0x59 | 0xB9 | 0xBE | 0x19 | 0xF9 | 0x99 =>
      some ⟨3, .AbsoluteY⟩
  | 0x61 | 0x21 | 0xC1 | 0x41 | 0xA1 | 0x01 | 0xE1 | 0x81 =>
      some ⟨2, .IndirectX⟩
  | 0x71 | 0x31 | 0xD1 | 0x51 | 0xB1 | 0x11 | 0xF1 | 0x91 =>
      some ⟨2, .IndirectY⟩
  | 0x6C =>
      some ⟨3, .Indirect⟩
  | 0x0A | 0x4A | 0x2A | 0x6A =>
      some ⟨1, .Accumulator⟩
  | 0x90 | 0xB0 | 0xF0 | 0x30 | 0xD0 | 0x10 | 0x50 | 0x70 =>
      some ⟨2, .NoneAddressing⟩
  | 0x00 | 0x18 | 0xD8 | 0x58 | 0xB8 | 0xCA | 0x88 | 0xE8 | 0xC8 | 0xEA | 0x48 | 0x08
  | 0x68 | 0x28 | 0x40 | 0x60 | 0x38 | 0xF8 | 0x78 | 0xAA | 0xA8 | 0xBA | 0x8A | 0x9A
  | 0x98 =>
      some ⟨1, .NoneAddressing⟩
  | _ => none

/-- Outcome of one opcode handler inside the fetch loop. -/
inductive ExecResult where
  | crashed
  | halted (cpu : CPU)
  | ok (cpu : CPU)

/-- Lift a fallible handler result into an `ExecResult`. -/
def ofExec : Option CPU → ExecResult
  | none => .crashed
  | some c => .ok c

/-- The dispatch `match` of `CPU::run_callback`: `0x00` (BRK) returns from the loop,
the `_` arm reports an unknown opcode and returns, every other arm runs its handler
(`.crashed` models a panic inside a handler). -/
def CPU.execute (cpu : CPU) (code : Nat) (mode : AddressingMode) : ExecResult :=
  match code with
  | 0x69 | 0x65 | 0x75 | 0x6D | 0x7D | 0x79 | 0x61 | 0x71 => ofExec (cpu.adc mode)
  | 0x29 | 0x25 | 0x35 | 0x2D | 0x3D | 0x39 | 0x21 | 0x31 => ofExec (cpu.and mode)
  | 0x0A | 0x06 | 0x16 | 0x0E | 0x1E => ofExec (cpu.asl mode)
  | 0x90 => ofExec (cpu.branch (!cpu.contains CpuFlags.CARRY))
  | 0xB0 => ofExec (cpu.branch (cpu.contains CpuFlags.CARRY))
  | 0xF0 => ofExec (cpu.branch (cpu.contains CpuFlags.ZERO))
  | 0x24 | 0x2C => ofExec (cpu.bit mode)
  | 0x30 => ofExec (cpu.branch (cpu.contains CpuFlags.NEGATIVE))
  | 0xD0 => ofExec (cpu.branch (!cpu.contains CpuFlags.ZERO))
  | 0x10 => ofExec (cpu.branch (!cpu.contains CpuFlags.NEGATIVE))
  | 0x00 => .halted cpu
  | 0x50 => ofExec (cpu.branch (!cpu.contains CpuFlags.OVERFLOW))
  | 0x70 => ofExec (cpu.branch (cpu.contains CpuFlags.OVERFLOW))
  | 0x18 => .ok (cpu.removeFlag CpuFlags.CARRY)
  | 0xD8 => .ok (cpu.removeFlag CpuFlags.DECIMAL)
  | 0x58 => .ok (cpu.removeFlag CpuFlags.INTERRUPT_DISABLE)
  | 0xB8 => .ok (cpu.removeFlag CpuFlags.OVERFLOW)
  | 0xC9 | 0xC5 | 0xD5 | 0xCD | 0xDD | 0xD9 | 0xC1 | 0xD1 =>
      ofExec (cpu.compare mode cpu.register_a)
  | 0xE0 | 0xE4 | 0xEC => ofExec (cpu.compare mode cpu.register_x)
  | 0xC0 | 0xC4 | 0xCC => ofExec (cpu.compare mode cpu.register_y)
  | 0xC6 | 0xD6 | 0xCE | 0xDE => ofExec (cpu.dec mode)
  | 0xCA => .ok cpu.dex
  | 0x88 => .ok cpu.dey
  | 0x49 | 0x45 | 0x55 | 0x4D | 0x5D | 0x59 | 0x41 | 0x51 => ofExec (cpu.eor mode)
  | 0xE6 | 0xF6 | 0xEE | 0xFE => ofExec (cpu.inc mode)
  | 0xE8 => .ok cpu.inx
  | 0xC8 => .ok cpu.iny
  | 0x4C | 0x6C => ofExec (cpu.jmp mode)
  | 0x20 => ofExec cpu.jsr
  | 0xA9 | 0xA5 | 0xB5 | 0xAD | 0xBD | 0xB9 | 0xA1 | 0xB1 => ofExec (cpu.lda mode)
  | 0xA2 | 0xA6 | 0xB6 | 0xAE | 0xBE => ofExec (cpu.ldx mode)
  | 0xA0 | 0xA4 | 0xB4 | 0xAC | 0xBC => ofExec (cpu.ldy mode)
  | 0x4A | 0x46 | 0x56 | 0x4E | 0x5E => ofExec (cpu.lsr mode)
  | 0xEA => .ok cpu
  | 0x09 | 0x05 | 0x15 | 0x0D | 0x1D | 0x19 | 0x01 | 0x11 => ofExec (cpu.ora mode)
  | 0x48 => ofExec cpu.pha
  | 0x08 => ofExec cpu.php
  | 0x68 => ofExec cpu.pla
  | 0x28 => ofExec cpu.plp
  | 0x2A | 0x26 | 0x36 | 0x2E | 0x3E => ofExec (cpu.rol mode)
  | 0x6A | 0x66 | 0x76 | 0x6E | 0x7E => ofExec (cpu.ror mode)
  | 0x40 => ofExec cpu.rti
  | 0x60 => ofExec cpu.rts
  | 0xE9 | 0xE5 | 0xF5 | 0xED | 0xFD | 0xF9 | 0xE1 | 0xF1 => ofExec (cpu.sbc mode)
  | 0x38 => .ok (cpu.set_carry_flag true)
  | 0xF8 => .ok (cpu.insertFlag CpuFlags.DECIMAL)
  | 0x78 => .ok (cpu.insertFlag CpuFlags.INTERRUPT_DISABLE)
  | 0x85 | 0x95 | 0x8D | 0x9D | 0x99 | 0x81 | 0x91 => ofExec (cpu.sta mode)
  | 0x86 | 0x96 | 0x8E => ofExec (cpu.stx mode)
  | 0x84 | 0x94 | 0x8C => ofExec (cpu.sty mode)
  | 0xAA => .ok cpu.tax
  | 0xA8 => .ok cpu.tay
  | 0xBA => .ok cpu.tsx
  | 0x8A => .ok cpu.txa
  | 0x9A => .ok cpu.txs
  | 0x98 => .ok cpu.tya
  | _ => .halted cpu

/-- Outcome of one iteration of the fetch-decode-execute loop. -/
inductive StepResult where
  | crashed
  | stopped (cpu : CPU)
  | stepped (cpu : CPU)

def StepResult.isCrashed : StepResult → Bool
  | .crashed => true
  | _ => false

def StepResult.isStopped : StepResult → Bool
  | .stopped _ => true
  | _ => false

def StepResult.isStepped : StepResult → Bool
  | .stepped _ => true
  | _ => false

/-- Program counter of the resulting state (0 for a crash). -/
def StepResult.pcOf : StepResult → Nat
  | .crashed => 0
  | .stopped c => c.program_counter
  | .stepped c => c.program_counter

/-- One iteration of the loop body of `CPU::run_callback`: fetch the opcode byte,
advance the counter, look the byte up in `OPCODES_MAP` (`.unwrap()` panics when the
byte has no descriptor), dispatch, and — when the handler left the program counter
where the lookup snapshot `pc_state` put it — skip the operand bytes. -/
def runStep (cpu : CPU) : StepResult :=
  match cpu.m_read cpu.program_counter with
  | none => .crashed
  | some code =>
    let cpu := { cpu with program_counter := (cpu.program_counter + 1) % 65536 }
    let pc_state := cpu.program_counter
    match opcodesMap code with
    | none => .crashed
    | some op =>
      match cpu.execute code op.mode with
      | .crashed => .crashed
      | .halted c => .stopped c
      | .ok c =>
        if pc_state == c.program_counter then
          .stepped { c with program_counter := (c.program_counter + (op.bytes - 1)) % 65536 }
        else
          .stepped c

/-- A CPU about to fetch the undefined opcode byte `0x02`. -/
def cpuC3 : CPU := { cpu0 with bus := ⟨upd (fun _ => 0) 0 0x02, ⟨fun _ => 0, 0x4000⟩⟩ }

/-- C3 counterexample: `0x02` has no descriptor, and one loop iteration on a CPU
about to fetch it is a crash (the `.unwrap()` on the descriptor lookup panics), not
the normal report-and-return exit the claim describes — the report-and-return `_`
arm is reachable only for bytes that do have a descriptor. -/
theorem C3_unknown_opcode_counterexample :
    opcodesMap 0x02 = none ∧ (runStep cpuC3).isStopped = false ∧
    (runStep cpuC3).isCrashed = true :=
  ⟨rfl, rfl, rfl⟩

/-- C3 (amended): fetching any opcode byte that has no descriptor makes the
fetch-decode-execute loop panic at the descriptor lookup; it does not return
normally. -/
theorem C3_unknown_opcode_crashes (cpu : CPU) (code : Nat)
    (h1 : cpu.m_read cpu.program_counter = some code)
    (h2 : opcodesMap code = none) :
    runStep cpu = StepResult.crashed := by
  unfold runStep
  rw [h1]
  dsimp only
  rw [h2]

/-- Witness for `C3_unknown_opcode_crashes` at the concrete state `cpuC3`. -/
theorem C3_unknown_opcode_crashes_witness : runStep cpuC3 = StepResult.crashed :=
  C3_unknown_opcode_crashes cpuC3 0x02 rfl rfl

/-- A CPU whose program counter points at a `ROL $10` operand byte, with
`RAM[0x10] = 0x80` and Carry clear. -/
def cpuC5 : CPU :=
  { cpu0 with program_counter := 0x200,
              bus := ⟨upd (upd (fun _ => 0) 0x200 0x10) 0x10 0x80, ⟨fun _ => 0, 0x4000⟩⟩ }

/-- Same setup for `ROR $10`, with `RAM[0x10] = 0x01` and Carry clear. -/
def cpuC5r : CPU :=
  { cpu0 with program_counter := 0x200,
              bus := ⟨upd (upd (fun _ => 0) 0x200 0x10) 0x10 0x01, ⟨fun _ => 0, 0x4000⟩⟩ }

/-- C5 failing-input evaluation: memory-operand `ROL` of `0x80` with Carry clear
writes `0x00` back (so the claim requires Zero set and Negative clear), but the code
computes Zero/Negative from the pre-rotation value `0x80`, leaving Zero clear and
Negative set; likewise memory-operand `ROR` of `0x01` writes `0x00` but leaves Zero
clear.  Carry is set correctly from the bit shifted out in both cases. -/
theorem C5_rol_ror_memory_flags_bug :
    ((cpuC5.rol AddressingMode.ZeroPage).map
        (fun c => (c.bus.cpu_vram 0x10, c.contains CpuFlags.ZERO,
                   c.contains CpuFlags.NEGATIVE, c.contains CpuFlags.CARRY))
      = some (0x00, false, true, true)) ∧
    ((cpuC5r.ror AddressingMode.ZeroPage).map
        (fun c => (c.bus.cpu_vram 0x10, c.contains CpuFlags.ZERO,
                   c.contains CpuFlags.NEGATIVE, c.contains CpuFlags.CARRY))
      = some (0x00, false, false, true)) :=
  ⟨rfl, rfl⟩

/-- A CPU about to execute a taken `BCS` (opcode `0xB0` at `0x0300`) whose signed
offset byte is `0xFF`, i.e. d = -1; Carry is set. -/
def cpuC6 : CPU :=
  { cpu0 with program_counter := 0x300, status_register := 0b100101,
              bus := ⟨upd (upd (fun _ => 0) 0x300 0xB0) 0x301 0xFF, ⟨fun _ => 0, 0x4000⟩⟩ }

/-- C6 failing-input evaluation: the taken branch handler redirects the program
counter to `A + 2 + d = 0x0301`, but because that equals the post-opcode snapshot
`pc_state`, the engine concludes the handler did not redirect and adds the operand
skip, retiring with `0x0302` instead of the `0x0301` the claim requires. -/
theorem C6_branch_minus_one_bug :
    (runStep cpuC6).isStepped = true ∧ (runStep cpuC6).pcOf = 0x0302 :=
  ⟨rfl, rfl⟩

/-- C7: executing indirect JMP with a pointer whose bytes are `l` (low, at the
program counter) and `h` (high): when `l = 0xFF` the target's high byte is fetched
from the start of the same page (`pointer & 0xFF00`, i.e. `256 * h`) rather than
from `pointer + 1`; for every other pointer the target is the little-endian 16-bit
value read at the pointer. -/
theorem C7_jmp_indirect_quirk (cpu : CPU) (l h : Nat) (hwf : BusWF cpu.bus)
    (hl : cpu.m_read cpu.program_counter = some l)
    (hh : cpu.m_read (cpu.program_counter + 1) = some h) :
    (l = 0xFF → cpu.jmp AddressingMode.Indirect = (do
        let hi ← cpu.m_read (256 * h)
        let lo ← cpu.m_read (256 * h + 255)
        pure { cpu with program_counter := 256 * hi + lo })) ∧
    (l ≠ 0xFF → cpu.jmp AddressingMode.Indirect = (do
        let lo ← cpu.m_read (256 * h + l)
        let hi ← cpu.m_read (256 * h + l + 1)
        pure { cpu with program_counter := 256 * hi + lo })) := by
  have hl256 : l < 256 := BUS.m_read_lt hwf hl
  have hh256 : h < 256 := BUS.m_read_lt hwf hh
  have hu : cpu.m_read_u16 cpu.program_counter = some (256 * h + l) := by
    show cpu.bus.m_read_u16 cpu.program_counter = some (256 * h + l)
    unfold BUS.m_read_u16
    rw [show cpu.bus.m_read cpu.program_counter = some l from hl,
        show cpu.bus.m_read (cpu.program_counter + 1) = some h from hh]
    simp [lor_shift8 h l hl256]
  constructor
  · intro he
    subst he
    simp only [CPU.jmp]
    rw [hu]
    have hcond : ((256 * h + 255) &&& 0x00FF) = 255 := by
      rw [and255_eq_mod]; omega
    have hpage : ((256 * h + 255) &&& 0xFF00) = 256 * h := andFF00_quirk h hh256
    simp only [Option.pure_def, Option.bind_eq_bind, Option.some_bind, hcond, hpage,
      beq_self_eq_true, if_true]
    cases e1 : cpu.m_read (256 * h) with
    | none => simp [e1]
    | some hi =>
        cases e2 : cpu.m_read (256 * h + 255) with
        | none => simp [e1, e2]
        | some lo =>
            have hlo : lo < 256 := BUS.m_read_lt hwf e2
            simp [e1, e2, lor_shift8 hi lo hlo]
  · intro hne
    simp only [CPU.jmp]
    rw [hu]
    have hcond : ((256 * h + l) &&& 0x00FF) = l := by
      rw [and255_eq_mod]; omega
    have hfalse : (((256 * h + l) &&& 0x00FF) == 0x00FF) = false := by
      rw [hcond]
      exact beq_eq_false_iff_ne.mpr hne
    simp only [Option.pure_def, Option.bind_eq_bind, Option.some_bind, hfalse,
      Bool.false_eq_true, if_false]
    show (do
        let t ← cpu.m_read_u16 (256 * h + l)
        pure { cpu with program_counter := t } : Option CPU) = _
    have : cpu.m_read_u16 (256 * h + l) = cpu.bus.m_read_u16 (256 * h + l) := rfl
    rw [this]
    unfold BUS.m_read_u16
    cases e1 : cpu.m_read (256 * h + l) with
    | none => simp [CPU.m_read] at e1; simp [e1]
    | some lo =>
        cases e2 : cpu.m_read (256 * h + l + 1) with
        | none =>
            have e1b : cpu.bus.m_read (256 * h + l) = some lo := e1
            have e2b : cpu.bus.m_read (256 * h + l + 1) = none := e2
            simp [e1b, e2b]
        | some hi =>
            have hlo : lo < 256 := BUS.m_read_lt hwf e1
            have e1b : cpu.bus.m_read (256 * h + l) = some lo := e1
            have e2b : cpu.bus.m_read (256 * h + l + 1) = some hi := e2
            simp [e1b, e2b, CPU.m_read, e1, e2, lor_shift8 hi lo hlo]

/-- A CPU about to execute the indirect target computation with pointer `0x10FF`:
RAM holds the pointer bytes at `0x20/0x21`, the target low byte `0x34` at `0x10FF`
and the same-page high byte `0x12` at `0x1000`. -/
def cpuC7 : CPU :=
  { cpu0 with program_counter := 0x20,
              bus := ⟨upd (upd (upd (upd (fun _ => 0) 0x20 0xFF) 0x21 0x10) 0xFF 0x34)
                          0x00 0x12,
                      ⟨fun _ => 0, 0x4000⟩⟩ }

theorem cpuC7_wf : BusWF cpuC7.bus := by
  refine ⟨fun i => ?_, fun i => ?_⟩
  · show upd (upd (upd (upd (fun _ => 0) 0x20 0xFF) 0x21 0x10) 0xFF 0x34) 0x00 0x12 i < 256
    unfold upd
    repeat' split
    all_goals norm_num
  · show (0 : Nat) < 256
    norm_num

/-- Witness for `C7_jmp_indirect_quirk`: with pointer `0x10FF` the jump lands on
`0x1234`, whose high byte `0x12` was fetched from `0x1000`, not `0x1100`. -/
theorem C7_jmp_indirect_quirk_witness :
    cpuC7.jmp AddressingMode.Indirect = some { cpuC7 with program_counter := 0x1234 } := by
  have hq := (C7_jmp_indirect_quirk cpuC7 0xFF 0x10 cpuC7_wf rfl rfl).1 rfl
  rw [hq]
  rfl

/-- C8: for every bus state, writing `v` at an address in `0x0000..0x1FFF` succeeds,
reading it back at the same address returns `v`, reading at any address of the
region congruent modulo `0x800` returns the same `v`, and after the write any two
addresses of the region congruent modulo `0x800` observe the same byte. -/
theorem C8_ram_mirror_roundtrip (b : BUS) (addr addr2 v : Nat)
    (h1 : addr ≤ 0x1FFF) (h2 : addr2 ≤ 0x1FFF) (h3 : addr2 % 0x800 = addr % 0x800) :
    ∃ bb, b.m_write addr v = some bb ∧ bb.m_read addr = some v ∧
      bb.m_read addr2 = some v ∧
      ∀ a1 a2, a1 ≤ 0x1FFF → a2 ≤ 0x1FFF → a1 % 0x800 = a2 % 0x800 →
        bb.m_read a1 = bb.m_read a2 := by
  refine ⟨{ b with cpu_vram := upd b.cpu_vram (addr &&& 0x7FF) v }, ?_, ?_, ?_, ?_⟩
  · unfold BUS.m_write
    rw [if_pos h1]
  · unfold BUS.m_read
    rw [if_pos h1]
    dsimp only
    rw [upd_same]
  · unfold BUS.m_read
    rw [if_pos h2]
    dsimp only
    have he : addr2 &&& 0x7FF = addr &&& 0x7FF := by
      rw [and2047_eq_mod, and2047_eq_mod]; omega
    rw [he, upd_same]
  · intro a1 a2 k1 k2 k3
    unfold BUS.m_read
    rw [if_pos k1, if_pos k2]
    have he : a1 &&& 0x7FF = a2 &&& 0x7FF := by
      rw [and2047_eq_mod, and2047_eq_mod]; omega
    rw [he]

/-- Witness for `C8_ram_mirror_roundtrip` at `addr = 0x0005`, mirror `0x1805`,
`v = 0x42` on the fresh bus. -/
theorem C8_ram_mirror_roundtrip_witness :
    ∃ bb, bus0.m_write 0x0005 0x42 = some bb ∧ bb.m_read 0x0005 = some 0x42 ∧
      bb.m_read 0x1805 = some 0x42 ∧
      ∀ a1 a2, a1 ≤ 0x1FFF → a2 ≤ 0x1FFF → a1 % 0x800 = a2 % 0x800 →
        bb.m_read a1 = bb.m_read a2 :=
  C8_ram_mirror_roundtrip bus0 0x0005 0x1805 0x42 (by norm_num) (by norm_num) (by norm_num)

/-! ## The PPU register file (`src/ppu/`) -/

/-- `ScrollRegister` (`src/ppu/registers/scroll.rs`). -/
structure ScrollRegister where
  scroll_x : Nat
  scroll_y : Nat
  latch : Bool

namespace ScrollRegister

/-- `ScrollRegister::write`: X first, then Y, toggling the register's own latch. -/
def write (s : ScrollRegister) (value : Nat) : ScrollRegister :=
  let s := if !s.latch then { s with scroll_x := value } else { s with scroll_y := value }
  { s with latch := !s.latch }

/-- `ScrollRegister::reset_latch`. -/
def reset_latch (s : ScrollRegister) : ScrollRegister := { s with latch := false }

end ScrollRegister

/-- `AddressRegister` (`src/ppu/registers/address.rs`): `value` is the source's
`(u8, u8)` pair — first component the high byte, second the low byte — and
`hi_ptr` the register's own write latch. -/
structure AddressRegister where
  value : Nat × Nat
  hi_ptr : Bool

namespace AddressRegister

/-- `AddressRegister::get`. -/
def get (a : AddressRegister) : Nat := (a.value.1 <<< 8) ||| a.value.2

/-- `AddressRegister::set`. -/
def set (a : AddressRegister) (data : Nat) : AddressRegister :=
  { a with value := ((data >>> 8) % 256, data &&& 0xFF) }

/-- `AddressRegister::update`: fill the half selected by `hi_ptr`, mask the
combined value to 14 bits, toggle `hi_ptr`. -/
def update (a : AddressRegister) (value : Nat) : AddressRegister :=
  let a := if a.hi_ptr then { a with value := (value, a.value.2) }
           else { a with value := (a.value.1, value) }
  let a := if a.get > 0x3FFF then a.set (a.get &&& 0x3FFF) else a
  { a with hi_ptr := !a.hi_ptr }

/-- `AddressRegister::increment`: bump the low byte with 8-bit wraparound, carry
into the high byte, mask to 14 bits. -/
def increment (a : AddressRegister) (inc : Nat) : AddressRegister :=
  let l := a.value.2
  let a := { a with value := (a.value.1, (a.value.2 + inc) % 256) }
  let a := if l > a.value.2 then { a with value := ((a.value.1 + 1) % 256, a.value.2) } else a
  if a.get > 0x3FFF then a.set (a.get &&& 0x3FFF) else a

/-- `AddressRegister::reset_latch`. -/
def reset_latch (a : AddressRegister) : AddressRegister := { a with hi_ptr := true }

end AddressRegister

/-- `ControlRegister::vram_add_increment` (`src/ppu/registers/control.rs`): step 32
when the `VRAM_ADD_INCREMENT` bit is set, else 1. -/
def ControlRegister.vram_add_increment (bits : Nat) : Nat :=
  if bits &&& 0x04 == 0x04 then 32 else 1

/-- `StatusRegister::snapshot`. Modelled from the spec:
`src/ppu/registers/status.rs` is not among the provided sources; the spec describes
the status register as an 8-bit value whose bit 7 is the vblank flag, returned
as-is by a read. -/
def StatusRegister.snapshot (bits : Nat) : Nat := bits

/-- `StatusRegister::reset_vblank_status`. Modelled from the spec: clearing the
vblank flag clears bit 7. -/
def StatusRegister.reset_vblank_status (bits : Nat) : Nat := bits &&& 0x7F

/-- PPU state (`struct PPU` in `src/ppu/mod.rs`); `chr_len` is the length of the
`chr_rom` vector, `control`, `mask` and `status` the raw register bytes. -/
structure PPU where
  chr_rom : Nat → Nat
  chr_len : Nat
  mirroring : Mirroring
  control : Nat
  mask : Nat
  status : Nat
  address : AddressRegister
  scroll : ScrollRegister
  vram : Nat → Nat
  oam_data : Nat → Nat
  oam_addr : Nat
  palette_table : Nat → Nat
  internal_buffer : Nat

namespace PPU

/-- `PPU::mirror_vram_address`: mask to the `0x2FFF` range, subtract the `0x2000`
base, fold nametables 1–3 according to the mirroring mode. -/
def mirror_vram_address (p : PPU) (addr : Nat) : Nat :=
  let mirrored := addr &&& 0x2FFF
  let vram_index := mirrored - 0x2000
  let name_table := vram_index / 0x400
  if p.mirroring = .VERTICAL ∧ (name_table = 2 ∨ name_table = 3) then vram_index - 0x800
  else if p.mirroring = .HORIZONTAL ∧ name_table = 2 then vram_index - 0x400
  else if p.mirroring = .HORIZONTAL ∧ name_table = 1 then vram_index - 0x400
  else if p.mirroring = .HORIZONTAL ∧ name_table = 3 then vram_index - 0x800
  else vram_index

/-- `PPU::increment_vram_addr`. -/
def increment_vram_addr (p : PPU) : PPU :=
  { p with address := p.address.increment (ControlRegister.vram_add_increment p.control) }

/-- `PPU::write_to_scroll`. -/
def write_to_scroll (p : PPU) (value : Nat) : PPU :=
  { p with scroll := p.scroll.write value }

/-- `PPU::write_to_address`. -/
def write_to_address (p : PPU) (value : Nat) : PPU :=
  { p with address := p.address.update value }

/-- `PPU::read_from_status`: snapshot, clear vblank, reset both latches. -/
def read_from_status (p : PPU) : Nat × PPU :=
  let data := StatusRegister.snapshot p.status
  let p := { p with status := StatusRegister.reset_vblank_status p.status }
  let p := { p with address := p.address.reset_latch }
  let p := { p with scroll := p.scroll.reset_latch }
  (data, p)

/-- `PPU::write_to_data`: route the current address-register value; writes into the
graphics-ROM range are reported and dropped; `0x3000..=0x3EFF` is `unimplemented!`
(`none`); the four palette mirrors fold down; out-of-range palette indexing panics
(`none`); every successful arm then increments the address register. -/
def write_to_data (p : PPU) (value : Nat) : Option PPU :=
  let addr := p.address.get
  let p1 :=
    if addr ≤ 0x1FFF then
      some p
    else if addr ≤ 0x2FFF then
      if p.mirror_vram_address addr < 0x800 then
        some { p with vram := upd p.vram (p.mirror_vram_address addr) value }
      else none
    else if addr ≤ 0x3EFF then
      none
    else if addr = 0x3F10 ∨ addr = 0x3F14 ∨ addr = 0x3F18 ∨ addr = 0x3F1C then
      if addr - 0x10 - 0x3F00 < 0x20 then
        some { p with palette_table := upd p.palette_table (addr - 0x10 - 0x3F00) value }
      else none
    else if addr ≤ 0x3FFF then
      if addr - 0x3F00 < 0x20 then
        some { p with palette_table := upd p.palette_table (addr - 0x3F00) value }
      else none
    else none
  p1.map increment_vram_addr

/-- `PPU::read_from_data`: increment the address register first; graphics-ROM and
VRAM reads are buffered one access behind; palette reads return immediately;
`0x3000..=0x3EFF` is `unimplemented!` (`none`). -/
def read_from_data (p : PPU) : Option (Nat × PPU) :=
  let addr := p.address.get
  let p := p.increment_vram_addr
  if addr ≤ 0x1FFF then
    if addr < p.chr_len then
      some (p.internal_buffer, { p with internal_buffer := p.chr_rom addr })
    else none
  else if addr ≤ 0x2FFF then
    if p.mirror_vram_address addr < 0x800 then
      some (p.internal_buffer, { p with internal_buffer := p.vram (p.mirror_vram_address addr) })
    else none
  else if addr ≤ 0x3EFF then
    none
  else if addr = 0x3F10 ∨ addr = 0x3F14 ∨ addr = 0x3F18 ∨ addr = 0x3F1C then
    if addr - 0x10 - 0x3F00 < 0x20 then some (p.palette_table (addr - 0x10 - 0x3F00), p)
    else none
  else if addr ≤ 0x3FFF then
    if addr - 0x3F00 < 0x20 then some (p.palette_table (addr - 0x3F00), p)
    else none
  else none

end PPU

/-- `PPU::new_empty_rom`: a blank 2 KiB graphics ROM, horizontal mirroring, all
registers at their power-on values. -/
def ppu0 : PPU :=
  { chr_rom := fun _ => 0, chr_len := 0x800, mirroring := .HORIZONTAL,
    control := 0, mask := 0, status := 0,
    address := ⟨(0, 0), true⟩, scroll := ⟨0, 0, false⟩,
    vram := fun _ => 0, oam_data := fun _ => 0, oam_addr := 0,
    palette_table := fun _ => 0, internal_buffer := 0 }

/-- C4 counterexample: on a fresh PPU (both latches at their reset positions) a
`write_to_scroll` does not flip the latch the address register consults — the next
`write_to_address` still fills the high half (`value = (0x2A, 0)`), whereas one
shared toggle flipped by the scroll write would make it fill the low half
(`value = (0, 0x2A)`). -/
theorem C4_shared_latch_counterexample :
    (ppu0.write_to_scroll 0x07).address.hi_ptr = ppu0.address.hi_ptr ∧
    ((ppu0.write_to_scroll 0x07).write_to_address 0x2A).address.value = (0x2A, 0) ∧
    ¬ ((ppu0.write_to_scroll 0x07).write_to_address 0x2A).address.value = (0, 0x2A) := by
  refine ⟨rfl, rfl, ?_⟩
  decide

/-- C4 (amended): Scroll and Address each track their own independent write latch:
a scroll write flips only the scroll latch, an address write flips only the address
latch (so a scroll write does not change which half the next address write fills),
and both latches reset on a status read or an explicit latch reset. -/
theorem C4_independent_latches (p : PPU) (v : Nat) :
    (p.write_to_scroll v).scroll.latch = !p.scroll.latch ∧
    (p.write_to_scroll v).address.hi_ptr = p.address.hi_ptr ∧
    (p.write_to_address v).address.hi_ptr = !p.address.hi_ptr ∧
    (p.write_to_address v).scroll.latch = p.scroll.latch ∧
    (p.read_from_status).2.address.hi_ptr = true ∧
    (p.read_from_status).2.scroll.latch = false ∧
    (p.address.reset_latch).hi_ptr = true ∧
    (p.scroll.reset_latch).latch = false := by
  refine ⟨?_, rfl, ?_, rfl, rfl, rfl, rfl, rfl⟩
  · unfold PPU.write_to_scroll ScrollRegister.write
    dsimp only
    split <;> rfl
  · unfold PPU.write_to_address AddressRegister.update
    dsimp only
    split <;> split <;> rfl

/-- `get` of an address register given by its byte pair. -/
theorem get_eq (v0 v1 : Nat) (b : Bool) (h : v1 < 256) :
    (AddressRegister.mk (v0, v1) b).get = 256 * v0 + v1 :=
  lor_shift8 v0 v1 h

/-- Behaviour of `AddressRegister::increment` below the 14-bit mask: plain
addition, split into carry-propagated bytes; the latch is untouched. -/
theorem increment_eq (a : AddressRegister) (inc : Nat)
    (h1 : a.value.1 < 256) (h2 : a.value.2 < 256) (hinc : inc < 256)
    (hb : 256 * a.value.1 + a.value.2 + inc ≤ 0x3FFF) :
    a.increment inc =
      ⟨((256 * a.value.1 + a.value.2 + inc) / 256,
        (256 * a.value.1 + a.value.2 + inc) % 256), a.hi_ptr⟩ := by
  unfold AddressRegister.increment
  dsimp only
  by_cases hc : a.value.2 > (a.value.2 + inc) % 256
  · rw [if_pos hc, if_neg (by rw [get_eq _ _ _ (by omega)]; omega)]
    simp only [AddressRegister.mk.injEq, Prod.mk.injEq]
    refine ⟨⟨?_, ?_⟩, trivial⟩ <;> omega
  · rw [if_neg hc, if_neg (by rw [get_eq _ _ _ (by omega)]; omega)]
    simp only [AddressRegister.mk.injEq, Prod.mk.injEq]
    refine ⟨⟨?_, ?_⟩, trivial⟩ <;> omega

/-- The nametable fold always lands inside the 2 KiB of physical VRAM. -/
theorem mirror_lt (p : PPU) (addr : Nat) (h1 : 0x2000 ≤ addr) (h2 : addr ≤ 0x2FFF) :
    p.mirror_vram_address addr < 0x800 := by
  unfold PPU.mirror_vram_address
  dsimp only
  rw [and2FFF_eq_self _ (by omega) (by omega)]
  cases hm : p.mirroring
  · rw [if_neg (by simp)]
    split_ifs with c2 c3 c4
    · obtain ⟨-, hnt⟩ := c2
      omega
    · obtain ⟨-, hnt⟩ := c3
      omega
    · obtain ⟨-, hnt⟩ := c4
      omega
    · have n2 : ¬ (addr - 0x2000) / 0x400 = 2 := fun hh => c2 ⟨rfl, hh⟩
      have n1 : ¬ (addr - 0x2000) / 0x400 = 1 := fun hh => c3 ⟨rfl, hh⟩
      have n3 : ¬ (addr - 0x2000) / 0x400 = 3 := fun hh => c4 ⟨rfl, hh⟩
      omega
  · split_ifs with c1 c2 c3 c4
    · obtain ⟨-, hnt⟩ := c1
      omega
    · simp at c2
    · simp at c3
    · simp at c4
    · have nn : ¬ ((addr - 0x2000) / 0x400 = 2 ∨ (addr - 0x2000) / 0x400 = 3) :=
        fun hh => c1 ⟨rfl, hh⟩
      omega

/-- Horizontal fold of the top-left nametable: identity on the offset. -/
theorem mirror_h_2000 (p : PPU) (off : Nat) (hm : p.mirroring = .HORIZONTAL)
    (h : off < 0x400) : p.mirror_vram_address (0x2000 + off) = off := by
  unfold PPU.mirror_vram_address
  dsimp only
  rw [and2FFF_eq_self _ (by omega) (by omega), hm]
  have e : (0x2000 + off - 0x2000) / 0x400 = 0 := by omega
  rw [e, if_neg (by simp), if_neg (by simp), if_neg (by simp), if_neg (by simp)]
  omega

/-- Horizontal fold of the top-right nametable (base `0x2400`) onto the same
physical cells as base `0x2000`. -/
theorem mirror_h_2400 (p : PPU) (off : Nat) (hm : p.mirroring = .HORIZONTAL)
    (h : off < 0x400) : p.mirror_vram_address (0x2400 + off) = off := by
  unfold PPU.mirror_vram_address
  dsimp only
  rw [and2FFF_eq_self _ (by omega) (by omega), hm]
  have e : (0x2400 + off - 0x2000) / 0x400 = 1 := by omega
  rw [e, if_neg (by simp), if_neg (by simp), if_pos (by simp)]
  omega

/-- Vertical fold of the top-left nametable: identity on the offset. -/
theorem mirror_v_2000 (p : PPU) (off : Nat) (hm : p.mirroring = .VERTICAL)
    (h : off < 0x400) : p.mirror_vram_address (0x2000 + off) = off := by
  unfold PPU.mirror_vram_address
  dsimp only
  rw [and2FFF_eq_self _ (by omega) (by omega), hm]
  have e : (0x2000 + off - 0x2000) / 0x400 = 0 := by omega
  rw [e, if_neg (by simp), if_neg (by simp), if_neg (by simp), if_neg (by simp)]
  omega

/-- Vertical fold of the bottom-left nametable (base `0x2800`) onto the same
physical cells as base `0x2000`. -/
theorem mirror_v_2800 (p : PPU) (off : Nat) (hm : p.mirroring = .VERTICAL)
    (h : off < 0x400) : p.mirror_vram_address (0x2800 + off) = off := by
  unfold PPU.mirror_vram_address
  dsimp only
  rw [and2FFF_eq_self _ (by omega) (by omega), hm]
  have e : (0x2800 + off - 0x2000) / 0x400 = 2 := by omega
  rw [e, if_pos (by simp)]
  omega

/-- `write_to_data` on a nametable address: store through the mirroring fold, then
increment the address register. -/
theorem write_to_data_vram (p : PPU) (v : Nat)
    (h1 : 0x2000 ≤ p.address.get) (h2 : p.address.get ≤ 0x2FFF) :
    p.write_to_data v =
      some (PPU.increment_vram_addr
        { p with vram := upd p.vram (p.mirror_vram_address p.address.get) v }) := by
  unfold PPU.write_to_data
  dsimp only
  rw [if_neg (by omega), if_pos h2, if_pos (mirror_lt p _ h1 h2)]
  rfl

/-- `read_from_data` on a nametable address: return the old buffer, refill the
buffer through the mirroring fold, increment the address register. -/
theorem read_from_data_vram (p : PPU)
    (h1 : 0x2000 ≤ p.address.get) (h2 : p.address.get ≤ 0x2FFF) :
    p.read_from_data =
      some (p.internal_buffer,
        { p.increment_vram_addr with
            internal_buffer := p.vram (p.mirror_vram_address p.address.get) }) := by
  unfold PPU.read_from_data
  dsimp only
  rw [if_neg (by omega), if_pos h2, if_pos (mirror_lt _ _ h1 h2)]
  rfl

/-- `write_to_data` on a graphics-ROM address: the write is dropped and only the
address register is incremented. -/
theorem write_to_data_chr (p : PPU) (v : Nat) (h : p.address.get ≤ 0x1FFF) :
    p.write_to_data v = some p.increment_vram_addr := by
  unfold PPU.write_to_data
  dsimp only
  rw [if_pos h]
  rfl

/-- Point the PPU's address register at a new `(hi, lo)` value (with the latch at
its reset position), as two `write_to_address` calls would. -/
def repoint (p : PPU) (hi lo : Nat) : PPU := { p with address := ⟨(hi, lo), true⟩ }

theorem repoint_address (p : PPU) (hi lo : Nat) :
    (repoint p hi lo).address = ⟨(hi, lo), true⟩ := rfl

theorem repoint_vram (p : PPU) (hi lo : Nat) : (repoint p hi lo).vram = p.vram := rfl

theorem increment_vram_addr_vram (p : PPU) : p.increment_vram_addr.vram = p.vram := rfl

theorem repoint_mirror (p : PPU) (hi lo a : Nat) :
    (repoint p hi lo).mirror_vram_address a = p.mirror_vram_address a := rfl

theorem increment_vram_addr_mirror (p : PPU) (a : Nat) :
    p.increment_vram_addr.mirror_vram_address a = p.mirror_vram_address a := rfl

theorem setvram_mirror (p : PPU) (f : Nat → Nat) (a : Nat) :
    ({ p with vram := f } : PPU).mirror_vram_address a = p.mirror_vram_address a := rfl

/-- The VRAM increment step is 1 or 32, per the control register's flag. -/
theorem vai_cases (bits : Nat) :
    ControlRegister.vram_add_increment bits = 1 ∨
    ControlRegister.vram_add_increment bits = 32 := by
  unfold ControlRegister.vram_add_increment
  split
  · right; rfl
  · left; rfl

/-- Two consecutive `read_from_data` calls, keeping only the second result — the
value the one-behind buffer delivers for the address the register held first. -/
def readBuffered (p : PPU) : Option Nat :=
  (p.read_from_data).bind (fun rp => (PPU.read_from_data rp.2).map Prod.fst)

/-- Write one data byte, re-point the address register at `(hi, lo)`, then read the
buffered value back. -/
def readTwice (o : Option PPU) (hi lo : Nat) : Option Nat :=
  o.bind (fun p => readBuffered (repoint p hi lo))

/-- A buffered read pair at a nametable address returns exactly the folded VRAM
cell the address register pointed at. -/
theorem readBuffered_vram (p : PPU)
    (h1 : 0x2000 ≤ p.address.get) (h2 : p.address.get + 32 ≤ 0x2FFF)
    (hw1 : p.address.value.1 < 256) (hw2 : p.address.value.2 < 256) :
    readBuffered p = some (p.vram (p.mirror_vram_address p.address.get)) := by
  have hga : p.address.get = 256 * p.address.value.1 + p.address.value.2 :=
    lor_shift8 _ _ hw2
  have hstep := vai_cases p.control
  have hinc : ControlRegister.vram_add_increment p.control < 256 := by
    rcases hstep with h' | h' <;> omega
  have hb : 256 * p.address.value.1 + p.address.value.2 +
      ControlRegister.vram_add_increment p.control ≤ 0x3FFF := by
    rcases hstep with h' | h' <;> omega
  have hi := increment_eq p.address _ hw1 hw2 hinc hb
  have hR : (p.address.increment (ControlRegister.vram_add_increment p.control)).get
      = p.address.get + ControlRegister.vram_add_increment p.control := by
    rw [hi, get_eq _ _ _ (by omega), hga]
    omega
  unfold readBuffered
  rw [read_from_data_vram p h1 (by omega), Option.some_bind]
  rw [read_from_data_vram]
  · rfl
  · show 0x2000 ≤ (p.address.increment (ControlRegister.vram_add_increment p.control)).get
    rw [hR]
    omega
  · show (p.address.increment (ControlRegister.vram_add_increment p.control)).get ≤ 0x2FFF
    rw [hR]
    rcases hstep with h' | h' <;> omega

/-- C9: with Horizontal mirroring, a data write through nametable base `0x2400` and
a buffered data read through base `0x2000` at the same offset observe the same
physical VRAM cell; with Vertical mirroring, bases `0x2800` and `0x2000` alias
instead — and the `mirror_vram_address` folds agree accordingly. -/
theorem C9_nametable_mirroring (pH pV : PPU) (off v : Nat)
    (hoff : off < 0x400) (hv : v < 256)
    (hmH : pH.mirroring = .HORIZONTAL) (hmV : pV.mirroring = .VERTICAL)
    (haH : pH.address.value = (0x24 + off / 256, off % 256))
    (haV : pV.address.value = (0x28 + off / 256, off % 256)) :
    pH.mirror_vram_address (0x2400 + off) = pH.mirror_vram_address (0x2000 + off) ∧
    pV.mirror_vram_address (0x2800 + off) = pV.mirror_vram_address (0x2000 + off) ∧
    readTwice (pH.write_to_data v) (0x20 + off / 256) (off % 256) = some v ∧
    readTwice (pV.write_to_data v) (0x20 + off / 256) (off % 256) = some v := by
  have hQg : (AddressRegister.mk (0x20 + off / 256, off % 256) true).get = 0x2000 + off := by
    rw [get_eq _ _ _ (by omega)]
    omega
  have hgaH : pH.address.get = 0x2400 + off := by
    unfold AddressRegister.get
    rw [haH]
    dsimp only
    rw [lor_shift8 _ _ (by omega)]
    omega
  have hgaV : pV.address.get = 0x2800 + off := by
    unfold AddressRegister.get
    rw [haV]
    dsimp only
    rw [lor_shift8 _ _ (by omega)]
    omega
  refine ⟨?_, ?_, ?_, ?_⟩
  · rw [mirror_h_2400 pH off hmH hoff, mirror_h_2000 pH off hmH hoff]
  · rw [mirror_v_2800 pV off hmV hoff, mirror_v_2000 pV off hmV hoff]
  · unfold readTwice
    rw [write_to_data_vram pH v (by rw [hgaH]; omega) (by rw [hgaH]; omega)]
    rw [Option.some_bind, hgaH, mirror_h_2400 pH off hmH hoff]
    rw [readBuffered_vram]
    · rw [repoint_address, hQg, repoint_mirror, increment_vram_addr_mirror, setvram_mirror,
          mirror_h_2000 pH off hmH hoff]
      rw [repoint_vram, increment_vram_addr_vram]
      dsimp only
      rw [upd_same]
    · rw [repoint_address, hQg]
      omega
    · rw [repoint_address, hQg]
      omega
    · rw [repoint_address]
      dsimp only
      omega
    · rw [repoint_address]
      dsimp only
      omega
  · unfold readTwice
    rw [write_to_data_vram pV v (by rw [hgaV]; omega) (by rw [hgaV]; omega)]
    rw [Option.some_bind, hgaV, mirror_v_2800 pV off hmV hoff]
    rw [readBuffered_vram]
    · rw [repoint_address, hQg, repoint_mirror, increment_vram_addr_mirror, setvram_mirror,
          mirror_v_2000 pV off hmV hoff]
      rw [repoint_vram, increment_vram_addr_vram]
      dsimp only
      rw [upd_same]
    · rw [repoint_address, hQg]
      omega
    · rw [repoint_address, hQg]
      omega
    · rw [repoint_address]
      dsimp only
      omega
    · rw [repoint_address]
      dsimp only
      omega

/-- A horizontal-mirroring PPU whose address register holds `0x2405`. -/
def ppuC9H : PPU := { ppu0 with address := ⟨(0x24, 0x05), true⟩ }

/-- A vertical-mirroring PPU whose address register holds `0x2805`. -/
def ppuC9V : PPU :=
  { ppu0 with mirroring := .VERTICAL, address := ⟨(0x28, 0x05), true⟩ }

/-- Witness for `C9_nametable_mirroring` at offset `0x005`, value `0x66`. -/
theorem C9_nametable_mirroring_witness :
    ppuC9H.mirror_vram_address (0x2400 + 0x05) = ppuC9H.mirror_vram_address (0x2000 + 0x05) ∧
    ppuC9V.mirror_vram_address (0x2800 + 0x05) = ppuC9V.mirror_vram_address (0x2000 + 0x05) ∧
    readTwice (ppuC9H.write_to_data 0x66) (0x20 + 0x05 / 256) (0x05 % 256) = some 0x66 ∧
    readTwice (ppuC9V.write_to_data 0x66) (0x20 + 0x05 / 256) (0x05 % 256) = some 0x66 :=
  C9_nametable_mirroring ppuC9H ppuC9V 0x05 0x66 (by decide) (by decide) rfl rfl rfl rfl

/-- C10: when the address register points into the graphics-ROM range
(`0x0000..0x1FFF`), `write_to_data` is reported and dropped: the graphics ROM,
VRAM, palette, OAM, registers, buffer and the address latch are all unchanged, and
the only effect is that the address register advances by the control register's
configured step, which is 1 or 32. -/
theorem C10_chr_write_reported_dropped (p : PPU) (v : Nat)
    (h : p.address.get ≤ 0x1FFF)
    (h1 : p.address.value.1 < 256) (h2 : p.address.value.2 < 256) :
    ∃ q, p.write_to_data v = some q ∧
      q.chr_rom = p.chr_rom ∧ q.chr_len = p.chr_len ∧ q.mirroring = p.mirroring ∧
      q.control = p.control ∧ q.mask = p.mask ∧ q.status = p.status ∧
      q.scroll = p.scroll ∧ q.vram = p.vram ∧ q.oam_data = p.oam_data ∧
      q.oam_addr = p.oam_addr ∧ q.palette_table = p.palette_table ∧
      q.internal_buffer = p.internal_buffer ∧
      q.address.hi_ptr = p.address.hi_ptr ∧
      (ControlRegister.vram_add_increment p.control = 1 ∨
        ControlRegister.vram_add_increment p.control = 32) ∧
      q.address.get = p.address.get + ControlRegister.vram_add_increment p.control := by
  have hga : p.address.get = 256 * p.address.value.1 + p.address.value.2 :=
    lor_shift8 _ _ h2
  have hstep := vai_cases p.control
  have hinc : ControlRegister.vram_add_increment p.control < 256 := by
    rcases hstep with h' | h' <;> omega
  have hb : 256 * p.address.value.1 + p.address.value.2 +
      ControlRegister.vram_add_increment p.control ≤ 0x3FFF := by
    rcases hstep with h' | h' <;> omega
  have hi := increment_eq p.address _ h1 h2 hinc hb
  refine ⟨p.increment_vram_addr, write_to_data_chr p v h,
    rfl, rfl, rfl, rfl, rfl, rfl, rfl, rfl, rfl, rfl, rfl, rfl, ?_, hstep, ?_⟩
  · show (p.address.increment (ControlRegister.vram_add_increment p.control)).hi_ptr
        = p.address.hi_ptr
    rw [hi]
  · show (p.address.increment (ControlRegister.vram_add_increment p.control)).get
        = p.address.get + ControlRegister.vram_add_increment p.control
    rw [hi, get_eq _ _ _ (by omega), hga]
    omega

/-- A PPU whose address register holds `0x1020`, inside the graphics-ROM range. -/
def ppuC10 : PPU := { ppu0 with address := ⟨(0x10, 0x20), true⟩ }

/-- Witness for `C10_chr_write_reported_dropped` at the concrete state `ppuC10`. -/
theorem C10_chr_write_reported_dropped_witness :
    ∃ q, ppuC10.write_to_data 0x55 = some q ∧
      q.chr_rom = ppuC10.chr_rom ∧ q.chr_len = ppuC10.chr_len ∧
      q.mirroring = ppuC10.mirroring ∧
      q.control = ppuC10.control ∧ q.mask = ppuC10.mask ∧ q.status = ppuC10.status ∧
      q.scroll = ppuC10.scroll ∧ q.vram = ppuC10.vram ∧ q.oam_data = ppuC10.oam_data ∧
      q.oam_addr = ppuC10.oam_addr ∧ q.palette_table = ppuC10.palette_table ∧
      q.internal_buffer = ppuC10.internal_buffer ∧
      q.address.hi_ptr = ppuC10.address.hi_ptr ∧
      (ControlRegister.vram_add_increment ppuC10.control = 1 ∨
        ControlRegister.vram_add_increment ppuC10.control = 32) ∧
      q.address.get = ppuC10.address.get + ControlRegister.vram_add_increment ppuC10.control :=
  C10_chr_write_reported_dropped ppuC10 0x55 (by decide) (by decide) (by decide)

end Nes
